import Mathlib

/-!
Shallow embedding of the risk-and-feed-health guard of the Kracken trading
bot: the clustered-loss tracker (`src/core/loss_cluster.py`) and the
data-quality monitor
(`.../kraken_ml_bot_v200E_full/monitoring/data_quality.py`).

Modelling conventions:
* `datetime` timestamps and `timedelta` durations are integers in seconds
  (`timedelta(minutes=m)` becomes `60 * m`); wall-clock reads
  (`datetime.utcnow()`, `time.time()`) become an explicit `now` parameter,
  one instant per call.
* Python `float` values (PnL amounts, multipliers, `time.time()` seconds)
  are modelled as exact rationals (`Rat`); decimal literals such as `1.4`
  are taken at their decimal value.
* Python exceptions are modelled by `Option`/`none`: a function that can
  raise an uncaught exception returns `none` in exactly the raising cases.
* A Python `dict` is modelled as an association list with first-match
  lookup and replace-or-append update, which realises the same key-value
  map semantics.
* Mutating methods become state-passing functions returning the new state.
-/

namespace KrackenGuard

/-- `LossEvent` from `core/loss_cluster.py`: timestamp and realized pnl. -/
structure LossEvent where
  ts : Int
  pnl : Rat
deriving DecidableEq

/-- State of `LossClusterTracker` from `core/loss_cluster.py`:
configuration (`window`, `cooldown` in seconds, the two thresholds) plus
the deque `_losses` (oldest first) and `_cooldown_until`. -/
structure LossClusterTracker where
  window : Int
  cooldown : Int
  throttle_losses : Nat
  pause_losses : Nat
  losses : List LossEvent
  cooldown_until : Option Int
deriving DecidableEq

namespace LossClusterTracker

/-- `LossClusterTracker.__init__`: durations given in minutes, empty deque,
no cooldown armed. -/
def init (window_minutes throttle_losses_arg pause_losses_arg cooldown_minutes : Nat) :
    LossClusterTracker :=
  { window := 60 * window_minutes
    cooldown := 60 * cooldown_minutes
    throttle_losses := throttle_losses_arg
    pause_losses := pause_losses_arg
    losses := []
    cooldown_until := none }

/-- `LossClusterTracker._prune`: pop events from the front while the front
event is more than `window` older than `now`. -/
def pruneLosses (now : Int) (window : Int) (losses : List LossEvent) : List LossEvent :=
  losses.dropWhile (fun e => decide (now - e.ts > window))

/-- `LossClusterTracker.record_loss(pnl, ts)`: no-op for `pnl >= 0`;
otherwise append the event, prune relative to its timestamp, and if the
retained count reaches `pause_losses` overwrite `_cooldown_until` with
`ts + cooldown`.  The Python default `ts=None -> utcnow()` is modelled by
the caller always supplying `ts`. -/
def record_loss (t : LossClusterTracker) (pnl : Rat) (ts : Int) : LossClusterTracker :=
  if 0 ≤ pnl then t
  else
    let pruned := pruneLosses ts t.window (t.losses ++ [{ ts := ts, pnl := pnl }])
    if t.pause_losses ≤ pruned.length then
      { t with losses := pruned, cooldown_until := some (ts + t.cooldown) }
    else
      { t with losses := pruned }

/-- `LossClusterTracker.should_pause()`: true iff `_cooldown_until` is set
and the current time is strictly before it. -/
def should_pause (t : LossClusterTracker) (now : Int) : Bool :=
  match t.cooldown_until with
  | none => false
  | some c => decide (now < c)

/-- `LossClusterTracker.throttle_multiplier()`: 0.25 once the retained
count is at or above `throttle_losses`, else 1.0. -/
def throttle_multiplier (t : LossClusterTracker) : Rat :=
  if t.throttle_losses ≤ t.losses.length then 0.25 else 1.0

end LossClusterTracker

/-- Fold a sequence of `record_loss(pnl, ts)` calls over a tracker. -/
def record_all (t : LossClusterTracker) (calls : List (Rat × Int)) : LossClusterTracker :=
  calls.foldl (fun s c => s.record_loss c.1 c.2) t

/-- Digit run of Python `int(s)` parsing: all characters must be decimal
digits and there must be at least one. -/
def digitsToNat (cs : List Char) : Option Nat :=
  match cs with
  | [] => none
  | _ =>
    cs.foldl (fun acc c => acc.bind (fun n =>
      if c.isDigit then some (10 * n + (c.toNat - 48)) else none)) (some 0)

/-- Python `int(s)` on a string: optional sign followed by digits, `none`
where Python raises `ValueError`.  (Python additionally strips surrounding
whitespace and allows digit-grouping underscores; no call site in this
code depends on those forms, so they are not modelled.) -/
def pyInt (s : String) : Option Int :=
  match s.data with
  | [] => none
  | c :: rest =>
    if c = '-' then (digitsToNat rest).map (fun n => -(n : Int))
    else if c = '+' then (digitsToNat rest).map (fun n => (n : Int))
    else (digitsToNat (c :: rest)).map (fun n => (n : Int))

/-- `_timeframe_ms` from `monitoring/data_quality.py`.  `timeframe[-1]`
raises `IndexError` on the empty string (modelled as `none`); a
`ValueError` from `int(timeframe[:-1])` is caught and yields 300000, as
does an unknown unit suffix. -/
def timeframe_ms (timeframe : String) : Option Int :=
  match timeframe.data.getLast? with
  | none => none
  | some unit =>
    match pyInt (String.mk timeframe.data.dropLast) with
    | none => some 300000
    | some value =>
      if unit = 's' then some (value * 1000)
      else if unit = 'm' then some (value * 60000)
      else if unit = 'h' then some (value * 3600000)
      else if unit = 'd' then some (value * 86400000)
      else some 300000

/-- One OHLCV row: `evaluate` reads only `row[0]`, the millisecond
timestamp; the remaining columns are carried opaquely. -/
structure Candle where
  ts : Int
  rest : List Rat
deriving DecidableEq

/-- `DataQualityStatus` (the payload of `as_dict`). -/
structure DataQualityStatus where
  last_ts : Int
  gap_ms : Int
  gap_detected : Bool
  stale : Bool
  alert : Bool
deriving DecidableEq

/-- State of `DataQualityMonitor`: configuration plus the `_last_alert`
map from `"symbol:timeframe"` keys to the time the alert last fired. -/
structure DataQualityMonitor where
  enabled : Bool
  alert_interval_sec : Rat
  gap_multiplier : Rat
  stale_multiplier : Rat
  last_alert : List (String × Rat)
deriving DecidableEq

/-- Python `int(x)` applied to a float/rational: truncation toward zero
(`Int.tdiv` is T-division). -/
def pyTrunc (q : Rat) : Int := Int.tdiv q.num (Int.ofNat q.den)

/-- `dict.get(key, default)` on the association-list model. -/
def getD (m : List (String × Rat)) (k : String) (d : Rat) : Rat :=
  match m.find? (fun p => p.1 == k) with
  | some p => p.2
  | none => d

/-- `dict[key] = value` on the association-list model: replace the first
binding of `k`, or append one. -/
def setKey (m : List (String × Rat)) (k : String) (v : Rat) : List (String × Rat) :=
  match m with
  | [] => [(k, v)]
  | p :: rest => if p.1 = k then (k, v) :: rest else p :: setKey rest k v

namespace DataQualityMonitor

/-- `DataQualityMonitor._should_alert(key)`: fire iff at least
`alert_interval_sec` has elapsed since the last recorded alert for `key`
(absent keys default to 0); on firing, record `now` for the key. -/
def should_alert (m : DataQualityMonitor) (key : String) (now : Rat) :
    Bool × DataQualityMonitor :=
  let last := getD m.last_alert key 0
  if m.alert_interval_sec ≤ now - last then
    (true, { m with last_alert := setKey m.last_alert key now })
  else
    (false, m)

/-- `DataQualityMonitor.evaluate(symbol, timeframe, ohlcv)`.  The result
is `none` when the call raises (only possible source: `_timeframe_ms` on
an empty timeframe); otherwise `some (status?, m')` where `status? = none`
models the Python `return None` for a disabled monitor or fewer than two
candles.  Both wall-clock reads inside one call (`time.time()` for
staleness and inside `_should_alert`) are modelled as the same instant
`now`, in seconds. -/
def evaluate (m : DataQualityMonitor) (symbol timeframe : String)
    (ohlcv : List Candle) (now : Rat) :
    Option (Option DataQualityStatus × DataQualityMonitor) :=
  if m.enabled = false ∨ ohlcv.length < 2 then some (none, m)
  else
    match timeframe_ms timeframe with
    | none => none
    | some expected_ms =>
      match ohlcv.reverse with
      | lastC :: prevC :: _ =>
        let last_ts := lastC.ts
        let prev_ts := prevC.ts
        let gap_ms := last_ts - prev_ts
        let gap_detected := decide ((gap_ms : Rat) > (expected_ms : Rat) * m.gap_multiplier)
        let now_ms : Int := pyTrunc (now * 1000)
        let stale := decide (((now_ms - last_ts : Int) : Rat) > (expected_ms : Rat) * m.stale_multiplier)
        if gap_detected || stale then
          let fired := should_alert m (symbol ++ ":" ++ timeframe) now
          some (some { last_ts := last_ts, gap_ms := gap_ms, gap_detected := gap_detected,
                       stale := stale, alert := fired.1 }, fired.2)
        else
          some (some { last_ts := last_ts, gap_ms := gap_ms, gap_detected := gap_detected,
                       stale := stale, alert := false }, m)
      | _ => some (none, m)

end DataQualityMonitor

/-- `DataQualityMonitor.__init__` with its default keyword arguments. -/
def mkMonitor : DataQualityMonitor :=
  { enabled := true
    alert_interval_sec := 1800.0
    gap_multiplier := 1.4
    stale_multiplier := 2.0
    last_alert := [] }

/-- One evaluation call in a trace: arguments plus the wall-clock instant
at which it runs. -/
structure MonitorCall where
  symbol : String
  timeframe : String
  ohlcv : List Candle
  now : Rat

/-- Run one call against the monitor, keeping only the state: on an
uncaught exception the state is unchanged (the raise happens before any
mutation of `_last_alert`). -/
def stepMonitor (m : DataQualityMonitor) (c : MonitorCall) : DataQualityMonitor :=
  match m.evaluate c.symbol c.timeframe c.ohlcv c.now with
  | some r => r.2
  | none => m

/-- Run a sequence of evaluation calls, keeping the final state. -/
def runCalls (m : DataQualityMonitor) (cs : List MonitorCall) : DataQualityMonitor :=
  cs.foldl stepMonitor m

namespace LossClusterTracker

theorem record_loss_config (t : LossClusterTracker) (pnl : Rat) (ts : Int) :
    (t.record_loss pnl ts).window = t.window ∧
    (t.record_loss pnl ts).cooldown = t.cooldown ∧
    (t.record_loss pnl ts).throttle_losses = t.throttle_losses ∧
    (t.record_loss pnl ts).pause_losses = t.pause_losses := by
  simp only [record_loss]
  split_ifs <;> exact ⟨rfl, rfl, rfl, rfl⟩

theorem record_loss_losses (t : LossClusterTracker) (pnl : Rat) (ts : Int)
    (h : pnl < 0) :
    (t.record_loss pnl ts).losses
      = pruneLosses ts t.window (t.losses ++ [{ ts := ts, pnl := pnl }]) := by
  simp only [record_loss, if_neg (not_le.mpr h)]
  split_ifs <;> rfl

theorem record_loss_cooldown_cases (t : LossClusterTracker) (pnl : Rat) (ts : Int) :
    (t.record_loss pnl ts).cooldown_until = t.cooldown_until ∨
    (t.record_loss pnl ts).cooldown_until = some (ts + t.cooldown) := by
  simp only [record_loss]
  split_ifs <;> simp

end LossClusterTracker

theorem cooldown_forward_aux (L : Int) (calls : List (Rat × Int)) :
    ∀ (t : LossClusterTracker) (c : Int), t.cooldown_until = some c → L ≤ c →
      (∀ p ∈ calls, L ≤ p.2 + t.cooldown) →
      ∃ c', (record_all t calls).cooldown_until = some c' ∧ L ≤ c' := by
  induction calls with
  | nil => exact fun t c h hc _ => ⟨c, h, hc⟩
  | cons p rest ih =>
    intro t c h hc hcalls
    have hcfg := (LossClusterTracker.record_loss_config t p.1 p.2).2.1
    have hrec : record_all t (p :: rest) = record_all (t.record_loss p.1 p.2) rest := rfl
    rw [hrec]
    rcases LossClusterTracker.record_loss_cooldown_cases t p.1 p.2 with h' | h'
    · exact ih (t.record_loss p.1 p.2) c (h'.trans h) hc
        (fun q hq => by rw [hcfg]; exact hcalls q (List.mem_cons_of_mem p hq))
    · exact ih (t.record_loss p.1 p.2) (p.2 + t.cooldown) h'
        (hcalls p (List.mem_cons_self p rest))
        (fun q hq => by rw [hcfg]; exact hcalls q (List.mem_cons_of_mem p hq))

/-- C9: for every `pnl ≥ 0` (including `+5.0` and `0`) and any timestamp,
`record_loss` is a no-op: the retained events, the cooldown-expiry and
every configuration field are unchanged — the whole state is equal. -/
theorem record_loss_nonneg_noop (t : LossClusterTracker) (pnl : Rat) (ts : Int)
    (h : 0 ≤ pnl) : t.record_loss pnl ts = t := by
  simp [LossClusterTracker.record_loss, if_pos h]

/-- Witness for `record_loss_nonneg_noop`: `pnl = 5` and `pnl = 0` on the
default tracker. -/
theorem record_loss_nonneg_noop_witness :
    (0 : Rat) ≤ 5 ∧
    (LossClusterTracker.init 30 2 3 20).record_loss 5 100 = LossClusterTracker.init 30 2 3 20 ∧
    (LossClusterTracker.init 30 2 3 20).record_loss 0 100 = LossClusterTracker.init 30 2 3 20 :=
  ⟨by norm_num, record_loss_nonneg_noop _ 5 100 (by norm_num),
    record_loss_nonneg_noop _ 0 100 (le_refl 0)⟩

/-- C8: `throttle_multiplier` returns exactly 0.25 whenever the retained
count is at or above `throttle_losses` (threshold inclusive) and 1.0 for
every count strictly below it; in the embedding it takes the state and
returns only the multiplier, mutating nothing. -/
theorem throttle_multiplier_spec (t : LossClusterTracker) :
    (t.throttle_losses ≤ t.losses.length → t.throttle_multiplier = 0.25) ∧
    (t.losses.length < t.throttle_losses → t.throttle_multiplier = 1.0) ∧
    (0.25 : Rat) ≠ 1.0 := by
  refine ⟨fun h => ?_, fun h => ?_, by norm_num⟩
  · simp [LossClusterTracker.throttle_multiplier, if_pos h]
  · simp [LossClusterTracker.throttle_multiplier, if_neg (not_le.mpr h)]

/-- Witness for `throttle_multiplier_spec`: one loss on the default
tracker keeps multiplier 1.0; two losses inside the window give 0.25. -/
theorem throttle_multiplier_spec_witness :
    ((LossClusterTracker.init 30 2 3 20).record_loss (-1) 0).throttle_multiplier = 1.0 ∧
    (record_all (LossClusterTracker.init 30 2 3 20) [(-1, 0), (-1, 10)]).throttle_multiplier = 0.25 :=
  ⟨(throttle_multiplier_spec _).2.1 (by decide),
    (throttle_multiplier_spec _).1 (by decide)⟩

/-- C1: when a recorded loss brings the retained count to `pause_losses`,
`record_loss` arms the cooldown-expiry at the triggering loss's timestamp
plus the cooldown duration; `should_pause` is then true exactly at current
times strictly before that expiry (false at or after it), and is false on
any tracker whose expiry was never set. -/
theorem pause_cooldown_spec (t : LossClusterTracker) (pnl : Rat) (ts : Int)
    (hneg : pnl < 0)
    (hcount : t.pause_losses ≤ (t.record_loss pnl ts).losses.length) :
    (t.record_loss pnl ts).cooldown_until = some (ts + t.cooldown) ∧
    (∀ now : Int, (t.record_loss pnl ts).should_pause now = decide (now < ts + t.cooldown)) ∧
    (∀ (u : LossClusterTracker) (now : Int), u.cooldown_until = none →
      u.should_pause now = false) := by
  have hlen : t.pause_losses ≤
      (LossClusterTracker.pruneLosses ts t.window (t.losses ++ [{ ts := ts, pnl := pnl }])).length := by
    rwa [LossClusterTracker.record_loss_losses t pnl ts hneg] at hcount
  have hcd : (t.record_loss pnl ts).cooldown_until = some (ts + t.cooldown) := by
    simp only [LossClusterTracker.record_loss, if_neg (not_le.mpr hneg), if_pos hlen]
  refine ⟨hcd, fun now => ?_, fun u now hu => ?_⟩
  · simp [LossClusterTracker.should_pause, hcd]
  · simp [LossClusterTracker.should_pause, hu]

/-- Witness for `pause_cooldown_spec`: `pause_losses = 1`, one loss at
time 0, cooldown 20 minutes: expiry 1200, paused at 1199, not at 1200. -/
theorem pause_cooldown_spec_witness :
    ((LossClusterTracker.init 30 2 1 20).record_loss (-1) 0).cooldown_until = some 1200 ∧
    ((LossClusterTracker.init 30 2 1 20).record_loss (-1) 0).should_pause 1199 = true ∧
    ((LossClusterTracker.init 30 2 1 20).record_loss (-1) 0).should_pause 1200 = false := by
  have h := pause_cooldown_spec (LossClusterTracker.init 30 2 1 20) (-1) 0 (by norm_num) (by decide)
  refine ⟨h.1.trans (by norm_num [LossClusterTracker.init]), ?_, ?_⟩
  · rw [h.2.1 1199]; decide
  · rw [h.2.1 1200]; decide

/-- C3 (amended): one loss recorded on a fresh tracker, followed by any
passage of time with no further records, leaves exactly ONE retained
event — pruning is lazy and runs only inside `record_loss`, so nothing
evicts the stale event; `should_pause` is false at every current time and
`throttle_multiplier` is 1.0, for thresholds of at least 2 and a
nonnegative window (the defaults are 2 and 3 with a 30-minute window). -/
theorem single_loss_idle_spec (t : LossClusterTracker) (pnl : Rat) (ts : Int)
    (hneg : pnl < 0) (hl : t.losses = []) (hcu : t.cooldown_until = none)
    (hw : 0 ≤ t.window) (hth : 2 ≤ t.throttle_losses) (hp : 2 ≤ t.pause_losses) :
    (t.record_loss pnl ts).losses.length = 1 ∧
    (∀ now : Int, (t.record_loss pnl ts).should_pause now = false) ∧
    (t.record_loss pnl ts).throttle_multiplier = 1.0 := by
  have hlist : (t.record_loss pnl ts).losses = [{ ts := ts, pnl := pnl }] := by
    rw [LossClusterTracker.record_loss_losses t pnl ts hneg, hl]
    simp [LossClusterTracker.pruneLosses, List.dropWhile, not_lt.mpr hw]
  have hnotpause :
      ¬ t.pause_losses ≤
        (LossClusterTracker.pruneLosses ts t.window (t.losses ++ [{ ts := ts, pnl := pnl }])).length := by
    have : (LossClusterTracker.pruneLosses ts t.window (t.losses ++ [{ ts := ts, pnl := pnl }])).length = 1 := by
      rw [← LossClusterTracker.record_loss_losses t pnl ts hneg, hlist]
      rfl
    omega
  have hcd : (t.record_loss pnl ts).cooldown_until = none := by
    simp only [LossClusterTracker.record_loss, if_neg (not_le.mpr hneg), if_neg hnotpause]
    exact hcu
  refine ⟨by rw [hlist]; rfl, fun now => ?_, ?_⟩
  · simp [LossClusterTracker.should_pause, hcd]
  · have hcfg := (LossClusterTracker.record_loss_config t pnl ts).2.2.1
    have : ¬ (t.record_loss pnl ts).throttle_losses ≤ (t.record_loss pnl ts).losses.length := by
      rw [hcfg, hlist]; simpa using by omega
    simp [LossClusterTracker.throttle_multiplier, if_neg this]

/-- Witness for `single_loss_idle_spec`: default tracker, loss at time 0,
checked far past the 1800-second window. -/
theorem single_loss_idle_spec_witness :
    ((LossClusterTracker.init 30 2 3 20).record_loss (-1) 0).losses.length = 1 ∧
    ((LossClusterTracker.init 30 2 3 20).record_loss (-1) 0).should_pause 1000000 = false ∧
    ((LossClusterTracker.init 30 2 3 20).record_loss (-1) 0).throttle_multiplier = 1.0 := by
  have h := single_loss_idle_spec (LossClusterTracker.init 30 2 3 20) (-1) 0
    (by norm_num) rfl rfl (by decide) (by decide) (by decide)
  exact ⟨h.1, h.2.1 1000000, h.2.2⟩

/-- C3 counterexample: with the default parameters, one loss recorded at
time 0 and no further records, the retained count is 1, not 0 — advancing
the clock runs no code, so nothing prunes the event (the observable
signals are nevertheless quiet: no pause, multiplier 1.0). -/
theorem single_loss_idle_cex :
    ((LossClusterTracker.init 30 2 3 20).record_loss (-1) 0).losses.length = 1 ∧
    ((LossClusterTracker.init 30 2 3 20).record_loss (-1) 0).losses.length ≠ 0 ∧
    ((LossClusterTracker.init 30 2 3 20).record_loss (-1) 0).should_pause 1000000 = false ∧
    ((LossClusterTracker.init 30 2 3 20).record_loss (-1) 0).throttle_multiplier = 1.0 := by
  have hthr : ¬ ((LossClusterTracker.init 30 2 3 20).record_loss (-1) 0).throttle_losses ≤
      ((LossClusterTracker.init 30 2 3 20).record_loss (-1) 0).losses.length := by decide
  exact ⟨by decide, by decide, by decide,
    by rw [LossClusterTracker.throttle_multiplier, if_neg hthr]⟩

theorem cooldown_never_cleared_aux (calls : List (Rat × Int)) :
    ∀ (t : LossClusterTracker) (c : Int), t.cooldown_until = some c →
      ∃ c', (record_all t calls).cooldown_until = some c' := by
  induction calls with
  | nil => exact fun t c h => ⟨c, h⟩
  | cons p rest ih =>
    intro t c h
    rcases LossClusterTracker.record_loss_cooldown_cases t p.1 p.2 with h' | h'
    · exact ih (t.record_loss p.1 p.2) c (h'.trans h)
    · exact ih (t.record_loss p.1 p.2) (p.2 + t.cooldown) h'

/-- C7 (amended): across EVERY sequence of `record_loss` calls the
cooldown-expiry, once set, is never cleared (first conjunct, no side
condition); and it never moves to an earlier time provided each call's
timestamp plus the cooldown duration is at or after the current expiry —
which holds in particular whenever timestamps are supplied in
non-decreasing order (second conjunct).  The assignment in the source is
an unconditional overwrite, so an out-of-order earlier timestamp that
re-triggers the pause threshold does move the expiry backward; see the
counterexample. -/
theorem cooldown_forward_spec (t : LossClusterTracker) (calls : List (Rat × Int)) (c : Int)
    (h : t.cooldown_until = some c) :
    (∃ c', (record_all t calls).cooldown_until = some c') ∧
    ((∀ p ∈ calls, c ≤ p.2 + t.cooldown) →
      ∃ c', (record_all t calls).cooldown_until = some c' ∧ c ≤ c') :=
  ⟨cooldown_never_cleared_aux calls t c h,
    fun hcalls => cooldown_forward_aux c calls t c h (le_refl c) hcalls⟩

/-- Witness for `cooldown_forward_spec`: expiry armed at 100, one further
loss at time 60 with cooldown 1200; the expiry survives and stays ≥ 100.
A second application at the counterexample's out-of-order trace shows the
never-cleared conjunct there too (the expiry is overwritten to 1700, not
cleared). -/
theorem cooldown_forward_spec_witness :
    ((record_all
      { window := 1800, cooldown := 1200, throttle_losses := 2, pause_losses := 3,
        losses := [], cooldown_until := some 100 } [(-1, 60)]).cooldown_until = some 100 ∧
    (100 : Int) ≤ 100) ∧
    (record_all (LossClusterTracker.init 30 2 3 20)
      [(-1, 1000), (-1, 1000), (-1, 1000), (-1, 500)]).cooldown_until ≠ none := by
  obtain ⟨⟨c1, hc1⟩, h2⟩ := cooldown_forward_spec
    { window := 1800, cooldown := 1200, throttle_losses := 2, pause_losses := 3,
      losses := [], cooldown_until := some 100 } [(-1, 60)] 100 rfl
  obtain ⟨c', hc', hle⟩ := h2 (by decide)
  have hnc := (cooldown_forward_spec
    (record_all (LossClusterTracker.init 30 2 3 20) [(-1, 1000), (-1, 1000), (-1, 1000)])
    [(-1, 500)] 2200 (by decide)).1
  refine ⟨⟨by decide, le_refl 100⟩, ?_⟩
  obtain ⟨c2, hc2⟩ := hnc
  rw [show record_all (LossClusterTracker.init 30 2 3 20)
      [(-1, 1000), (-1, 1000), (-1, 1000), (-1, 500)]
    = record_all (record_all (LossClusterTracker.init 30 2 3 20)
        [(-1, 1000), (-1, 1000), (-1, 1000)]) [(-1, 500)] from rfl, hc2]
  exact Option.noConfusion

theorem getD_cons (p : String × Rat) (rest : List (String × Rat)) (k : String) (d : Rat) :
    getD (p :: rest) k d = if p.1 = k then p.2 else getD rest k d := by
  by_cases h : p.1 = k
  · simp [getD, List.find?, h]
  · have hb : (p.1 == k) = false := beq_eq_false_iff_ne.mpr h
    simp [getD, List.find?, h, hb]

theorem getD_setKey_same (m : List (String × Rat)) (k : String) (v d : Rat) :
    getD (setKey m k v) k d = v := by
  induction m with
  | nil => simp [setKey, getD_cons]
  | cons p rest ih =>
    by_cases h : p.1 = k
    · simp [setKey, h, getD_cons]
    · simp [setKey, h, getD_cons, ih]

theorem getD_setKey_ne (m : List (String × Rat)) (k k' : String) (v d : Rat)
    (h : k' ≠ k) :
    getD (setKey m k v) k' d = getD m k' d := by
  have h' : ¬ (k = k') := fun hh => h hh.symm
  induction m with
  | nil => simp [setKey, getD_cons, getD, h']
  | cons p rest ih =>
    by_cases hp : p.1 = k
    · rw [setKey, if_pos hp, getD_cons, if_neg h', getD_cons, if_neg (hp ▸ h')]
    · rw [setKey, if_neg hp, getD_cons, getD_cons]
      by_cases hk' : p.1 = k'
      · rw [if_pos hk', if_pos hk']
      · rw [if_neg hk', if_neg hk', ih]

namespace DataQualityMonitor

/-- Exhaustive description of one `evaluate` call: disabled/short input
(state unchanged, no status), uncaught exception from `_timeframe_ms`,
quiet status (state unchanged), rate-limit-suppressed status (state
unchanged), or fired alert (the key's last-alert entry set to `now`). -/
theorem evaluate_cases (m : DataQualityMonitor) (s tf : String) (o : List Candle) (now : Rat) :
    m.evaluate s tf o now = some (none, m) ∨
    (m.evaluate s tf o now = none ∧ timeframe_ms tf = none) ∨
    (∃ st, m.evaluate s tf o now = some (some st, m) ∧ st.alert = false ∧
      (st.gap_detected || st.stale) = false) ∨
    (∃ st, m.evaluate s tf o now = some (some st, m) ∧ st.alert = false ∧
      (st.gap_detected || st.stale) = true ∧
      ¬ m.alert_interval_sec ≤ now - getD m.last_alert (s ++ ":" ++ tf) 0) ∨
    (∃ st, m.evaluate s tf o now
        = some (some st, { m with last_alert := setKey m.last_alert (s ++ ":" ++ tf) now }) ∧
      st.alert = true ∧ (st.gap_detected || st.stale) = true ∧
      m.alert_interval_sec ≤ now - getD m.last_alert (s ++ ":" ++ tf) 0) := by
  unfold evaluate
  split_ifs with h1
  · exact Or.inl rfl
  · rcases htf : timeframe_ms tf with _ | e
    · exact Or.inr (Or.inl ⟨rfl, rfl⟩)
    · rcases hrev : o.reverse with _ | ⟨a, _ | ⟨b, tl⟩⟩
      · exact Or.inl rfl
      · exact Or.inl rfl
      · simp only [DataQualityMonitor.should_alert]
        split_ifs with hgs halert
        · refine Or.inr (Or.inr (Or.inr (Or.inr ⟨_, rfl, rfl, ?_, halert⟩)))
          simpa using hgs
        · refine Or.inr (Or.inr (Or.inr (Or.inl ⟨_, rfl, rfl, ?_, halert⟩)))
          simpa using hgs
        · refine Or.inr (Or.inr (Or.inl ⟨_, rfl, rfl, ?_⟩))
          simpa using hgs

end DataQualityMonitor

/-- C7 counterexample: three losses at time 1000 arm the expiry at 2200; a
fourth loss with out-of-order timestamp 500 re-triggers the threshold and
overwrites the expiry with 500 + 1200 = 1700 < 2200 — the expiry moved to
an earlier time. -/
theorem cooldown_forward_cex :
    (record_all (LossClusterTracker.init 30 2 3 20)
      [(-1, 1000), (-1, 1000), (-1, 1000)]).cooldown_until = some 2200 ∧
    (record_all (LossClusterTracker.init 30 2 3 20)
      [(-1, 1000), (-1, 1000), (-1, 1000), (-1, 500)]).cooldown_until = some 1700 ∧
    (1700 : Int) < 2200 :=
  ⟨by decide, by decide, by decide⟩

namespace DataQualityMonitor

theorem evaluate_config (m : DataQualityMonitor) (s tf : String) (o : List Candle) (now : Rat)
    (r : Option DataQualityStatus × DataQualityMonitor)
    (h : m.evaluate s tf o now = some r) :
    r.2.enabled = m.enabled ∧ r.2.alert_interval_sec = m.alert_interval_sec ∧
    r.2.gap_multiplier = m.gap_multiplier ∧ r.2.stale_multiplier = m.stale_multiplier := by
  rcases evaluate_cases m s tf o now with hc | ⟨hc, _⟩ | ⟨st, hc, _⟩ | ⟨st, hc, _⟩ | ⟨st, hc, _⟩ <;>
    rw [h] at hc
  · injection hc with hr; subst hr; exact ⟨rfl, rfl, rfl, rfl⟩
  · exact Option.noConfusion hc
  · injection hc with hr; subst hr; exact ⟨rfl, rfl, rfl, rfl⟩
  · injection hc with hr; subst hr; exact ⟨rfl, rfl, rfl, rfl⟩
  · injection hc with hr; subst hr; exact ⟨rfl, rfl, rfl, rfl⟩

theorem evaluate_fired (m : DataQualityMonitor) (s tf : String) (o : List Candle) (now : Rat)
    (st : DataQualityStatus) (m' : DataQualityMonitor)
    (h : m.evaluate s tf o now = some (some st, m')) (ha : st.alert = true) :
    getD m'.last_alert (s ++ ":" ++ tf) 0 = now ∧
    m.alert_interval_sec ≤ now - getD m.last_alert (s ++ ":" ++ tf) 0 := by
  rcases evaluate_cases m s tf o now with hc | ⟨hc, _⟩ | ⟨st2, hc, ha2, _⟩ | ⟨st2, hc, ha2, _, _⟩ |
      ⟨st2, hc, ha2, _, hcond⟩ <;> rw [h] at hc
  · injection hc with hpair; injection hpair with hfst hsnd; exact Option.noConfusion hfst
  · exact Option.noConfusion hc
  · injection hc with hpair; injection hpair with hfst hsnd
    injection hfst with hst
    rw [hst] at ha; rw [ha] at ha2; exact Bool.noConfusion ha2
  · injection hc with hpair; injection hpair with hfst hsnd
    injection hfst with hst
    rw [hst] at ha; rw [ha] at ha2; exact Bool.noConfusion ha2
  · injection hc with hpair; injection hpair with hfst hsnd
    refine ⟨?_, hcond⟩
    rw [hsnd]
    exact getD_setKey_same m.last_alert (s ++ ":" ++ tf) now 0

/-- Equation for the main branch of `evaluate`: enabled monitor, at least
two candles, a timeframe whose interval computation succeeds. -/
theorem evaluate_main (m : DataQualityMonitor) (s tf : String) (o : List Candle) (now : Rat)
    (e : Int) (a b : Candle) (tl : List Candle)
    (hen : m.enabled = true) (hlen : ¬ o.length < 2)
    (htf : timeframe_ms tf = some e) (hrev : o.reverse = a :: b :: tl) :
    m.evaluate s tf o now =
      (if (decide (((a.ts - b.ts : Int) : Rat) > (e : Rat) * m.gap_multiplier) ||
           decide (((pyTrunc (now * 1000) - a.ts : Int) : Rat) > (e : Rat) * m.stale_multiplier)) = true
       then
        (if m.alert_interval_sec ≤ now - getD m.last_alert (s ++ ":" ++ tf) 0 then
          some (some
            { last_ts := a.ts
              gap_ms := a.ts - b.ts
              gap_detected := decide (((a.ts - b.ts : Int) : Rat) > (e : Rat) * m.gap_multiplier)
              stale := decide (((pyTrunc (now * 1000) - a.ts : Int) : Rat) > (e : Rat) * m.stale_multiplier)
              alert := true },
            { m with last_alert := setKey m.last_alert (s ++ ":" ++ tf) now })
        else
          some (some
            { last_ts := a.ts
              gap_ms := a.ts - b.ts
              gap_detected := decide (((a.ts - b.ts : Int) : Rat) > (e : Rat) * m.gap_multiplier)
              stale := decide (((pyTrunc (now * 1000) - a.ts : Int) : Rat) > (e : Rat) * m.stale_multiplier)
              alert := false }, m))
       else
        some (some
          { last_ts := a.ts
            gap_ms := a.ts - b.ts
            gap_detected := decide (((a.ts - b.ts : Int) : Rat) > (e : Rat) * m.gap_multiplier)
            stale := decide (((pyTrunc (now * 1000) - a.ts : Int) : Rat) > (e : Rat) * m.stale_multiplier)
            alert := false }, m)) := by
  have h1 : ¬ (m.enabled = false ∨ o.length < 2) := by
    rw [hen]; simp [hlen]
  unfold evaluate should_alert
  rw [if_neg h1, htf, hrev]
  dsimp only
  split_ifs <;> rfl

end DataQualityMonitor

theorem stepMonitor_config (m : DataQualityMonitor) (c : MonitorCall) :
    (stepMonitor m c).enabled = m.enabled ∧
    (stepMonitor m c).alert_interval_sec = m.alert_interval_sec ∧
    (stepMonitor m c).gap_multiplier = m.gap_multiplier ∧
    (stepMonitor m c).stale_multiplier = m.stale_multiplier := by
  unfold stepMonitor
  rcases DataQualityMonitor.evaluate_cases m c.symbol c.timeframe c.ohlcv c.now with
      hc | ⟨hc, _⟩ | ⟨st, hc, _⟩ | ⟨st, hc, _⟩ | ⟨st, hc, _⟩ <;> rw [hc] <;>
    exact ⟨rfl, rfl, rfl, rfl⟩

theorem stepMonitor_lastAlert_mono (m : DataQualityMonitor) (c : MonitorCall) (k : String)
    (hnn : 0 ≤ m.alert_interval_sec) :
    getD m.last_alert k 0 ≤ getD (stepMonitor m c).last_alert k 0 := by
  unfold stepMonitor
  rcases DataQualityMonitor.evaluate_cases m c.symbol c.timeframe c.ohlcv c.now with
      hc | ⟨hc, _⟩ | ⟨st, hc, _⟩ | ⟨st, hc, _⟩ | ⟨st, hc, _, _, hcond⟩ <;>
    (rw [hc]; try exact le_refl (getD m.last_alert k 0))
  show getD m.last_alert k 0 ≤ getD (setKey m.last_alert (c.symbol ++ ":" ++ c.timeframe) c.now) k 0
  by_cases hk : k = c.symbol ++ ":" ++ c.timeframe
  · subst hk
    rw [getD_setKey_same]
    linarith
  · rw [getD_setKey_ne _ _ _ _ _ hk]

theorem runCalls_config (m : DataQualityMonitor) (cs : List MonitorCall) :
    (runCalls m cs).enabled = m.enabled ∧
    (runCalls m cs).alert_interval_sec = m.alert_interval_sec ∧
    (runCalls m cs).gap_multiplier = m.gap_multiplier ∧
    (runCalls m cs).stale_multiplier = m.stale_multiplier := by
  induction cs generalizing m with
  | nil => exact ⟨rfl, rfl, rfl, rfl⟩
  | cons c rest ih =>
    have h1 := stepMonitor_config m c
    have h2 := ih (stepMonitor m c)
    exact ⟨h2.1.trans h1.1, h2.2.1.trans h1.2.1, h2.2.2.1.trans h1.2.2.1,
      h2.2.2.2.trans h1.2.2.2⟩

theorem runCalls_lastAlert_mono (cs : List MonitorCall) (m : DataQualityMonitor) (k : String)
    (hnn : 0 ≤ m.alert_interval_sec) :
    getD m.last_alert k 0 ≤ getD (runCalls m cs).last_alert k 0 := by
  induction cs generalizing m with
  | nil => exact le_refl _
  | cons c rest ih =>
    have h1 := stepMonitor_lastAlert_mono m c k hnn
    have hcfg := (stepMonitor_config m c).2.1
    have h2 := ih (stepMonitor m c) (by rw [hcfg]; exact hnn)
    exact h1.trans h2

theorem reverse_two (o : List Candle) (h : 2 ≤ o.length) :
    ∃ a b tl, o.reverse = a :: b :: tl := by
  rcases hrev : o.reverse with _ | ⟨a, _ | ⟨b, tl⟩⟩
  · have hl := congrArg List.length hrev
    rw [List.length_reverse] at hl
    simp only [List.length_nil] at hl
    omega
  · have hl := congrArg List.length hrev
    rw [List.length_reverse] at hl
    simp only [List.length_cons, List.length_nil] at hl
    omega
  · exact ⟨a, b, tl, rfl⟩

theorem eval_fire_concrete :
    mkMonitor.evaluate "BTC" "1m" [⟨0, []⟩, ⟨100, []⟩] 1000000
      = some (some { last_ts := 100, gap_ms := 100, gap_detected := false, stale := true,
                     alert := true },
              { mkMonitor with last_alert := [("BTC:1m", 1000000)] }) := by
  rw [DataQualityMonitor.evaluate_main mkMonitor "BTC" "1m" [⟨0, []⟩, ⟨100, []⟩] 1000000 60000
    ⟨100, []⟩ ⟨0, []⟩ [] rfl (by decide) (by decide) (by decide)]
  dsimp only
  rw [show (decide (((100 - 0 : Int) : Rat) > ((60000 : Int) : Rat) * mkMonitor.gap_multiplier))
        = false from decide_eq_false (by norm_num [mkMonitor]),
    show (decide (((pyTrunc ((1000000 : Rat) * 1000) - 100 : Int) : Rat)
          > ((60000 : Int) : Rat) * mkMonitor.stale_multiplier)) = true from
      decide_eq_true (by
        rw [show ((1000000 : Rat) * 1000) = ((1000000000 : Int) : Rat) by norm_num,
          show pyTrunc ((1000000000 : Int) : Rat) = 1000000000 by decide]
        norm_num [mkMonitor])]
  rw [if_pos (show (false || true) = true from rfl),
    if_pos (show mkMonitor.alert_interval_sec
        ≤ 1000000 - getD mkMonitor.last_alert ("BTC" ++ ":" ++ "1m") 0 by
      simp only [mkMonitor, getD, List.find?]
      norm_num)]
  rfl

theorem eval_quiet_concrete :
    mkMonitor.evaluate "BTC/USD" "1m" [⟨0, []⟩, ⟨100, []⟩] 0
      = some (some { last_ts := 100, gap_ms := 100, gap_detected := false, stale := false,
                     alert := false }, mkMonitor) := by
  rw [DataQualityMonitor.evaluate_main mkMonitor "BTC/USD" "1m" [⟨0, []⟩, ⟨100, []⟩] 0 60000
    ⟨100, []⟩ ⟨0, []⟩ [] rfl (by decide) (by decide) (by decide)]
  dsimp only
  rw [show (decide (((100 - 0 : Int) : Rat) > ((60000 : Int) : Rat) * mkMonitor.gap_multiplier))
        = false from decide_eq_false (by norm_num [mkMonitor]),
    show (decide (((pyTrunc ((0 : Rat) * 1000) - 100 : Int) : Rat)
          > ((60000 : Int) : Rat) * mkMonitor.stale_multiplier)) = false from
      decide_eq_false (by
        rw [show ((0 : Rat) * 1000) = ((0 : Int) : Rat) by norm_num,
          show pyTrunc ((0 : Int) : Rat) = 0 by decide]
        norm_num [mkMonitor])]
  rw [if_neg (show ¬ ((false || false) = true) by decide)]
  rfl

/-- C2: for non-empty malformed timeframes the documented fallback holds
("bogus" yields the 300000 ms default and `evaluate` cannot raise with
it), but the claimed totality fails at the empty string: `timeframe[-1]`
raises IndexError before the ValueError guard, and `evaluate` propagates
the exception (modelled as the outer `none`). -/
theorem timeframe_fallback_bug :
    timeframe_ms "bogus" = some 300000 ∧
    timeframe_ms "" = none ∧
    mkMonitor.evaluate "BTC/USD" "" [⟨0, []⟩, ⟨100, []⟩] 0 = none ∧
    (∀ (m : DataQualityMonitor) (s : String) (o : List Candle) (now : Rat),
      (m.evaluate s "bogus" o now).isSome = true) := by
  refine ⟨by decide, by decide, by decide, ?_⟩
  intro m s o now
  rcases DataQualityMonitor.evaluate_cases m s "bogus" o now with hc | ⟨_, hc⟩ | ⟨st, hc, _⟩ |
      ⟨st, hc, _⟩ | ⟨st, hc, _⟩
  · rw [hc]; rfl
  · exact absurd hc (by decide)
  · rw [hc]; rfl
  · rw [hc]; rfl
  · rw [hc]; rfl

/-- C4: the guard calls are pure functions of their supplied arguments,
the injected current time, and the retained state: `should_pause` depends
only on the cooldown-expiry, `throttle_multiplier` only on the retained
count and its threshold, and two `evaluate` calls with identical
arguments at the same current time, from monitors agreeing on the
configuration and on the evaluated key's last-alert entry, return the
same status record. -/
theorem guard_pure_spec :
    (∀ (t1 t2 : LossClusterTracker) (now : Int), t1.cooldown_until = t2.cooldown_until →
      t1.should_pause now = t2.should_pause now) ∧
    (∀ t1 t2 : LossClusterTracker, t1.losses.length = t2.losses.length →
      t1.throttle_losses = t2.throttle_losses →
      t1.throttle_multiplier = t2.throttle_multiplier) ∧
    (∀ (m1 m2 : DataQualityMonitor) (s tf : String) (o : List Candle) (now : Rat),
      m1.enabled = m2.enabled →
      m1.alert_interval_sec = m2.alert_interval_sec →
      m1.gap_multiplier = m2.gap_multiplier →
      m1.stale_multiplier = m2.stale_multiplier →
      getD m1.last_alert (s ++ ":" ++ tf) 0 = getD m2.last_alert (s ++ ":" ++ tf) 0 →
      Option.map Prod.fst (m1.evaluate s tf o now)
        = Option.map Prod.fst (m2.evaluate s tf o now)) := by
  refine ⟨?_, ?_, ?_⟩
  · intro t1 t2 now h
    unfold LossClusterTracker.should_pause
    rw [h]
  · intro t1 t2 hlen hthr
    unfold LossClusterTracker.throttle_multiplier
    rw [hlen, hthr]
  · intro m1 m2 s tf o now hen hint hgap hstale hkey
    unfold DataQualityMonitor.evaluate DataQualityMonitor.should_alert
    rw [hen]
    split_ifs with h1
    · rfl
    · rcases htf : timeframe_ms tf with _ | e
      · rfl
      · rcases hrev : o.reverse with _ | ⟨a, _ | ⟨b, tl⟩⟩
        · rfl
        · rfl
        · dsimp only
          rw [hgap, hstale, hint, hkey]
          split_ifs <;> rfl

/-- Witness for `guard_pure_spec`: two monitors differing in an unrelated
last-alert entry produce the same status for the evaluated key. -/
theorem guard_pure_spec_witness :
    Option.map Prod.fst
        (({ mkMonitor with last_alert := [("A:1m", 3), ("Z", 9)] } : DataQualityMonitor).evaluate
          "A" "1m" [⟨0, []⟩, ⟨100, []⟩] 1000000)
      = Option.map Prod.fst
        (({ mkMonitor with last_alert := [("A:1m", 3)] } : DataQualityMonitor).evaluate
          "A" "1m" [⟨0, []⟩, ⟨100, []⟩] 1000000) :=
  guard_pure_spec.2.2 _ _ "A" "1m" [⟨0, []⟩, ⟨100, []⟩] 1000000 rfl rfl rfl rfl (by decide)

/-- C5: across any trace of `evaluate` calls, two fired alerts for the
same `symbol:timeframe` key are at least `alert_interval_sec` apart,
regardless of how many condition-meeting evaluations are rate-limit
suppressed in between; and an evaluation that meets the gap-or-stale
condition fires exactly when `alert_interval_sec` has elapsed since the
key's recorded last alert (so it fires again as soon as the interval has
passed). -/
theorem alert_rate_limit_spec :
    (∀ (m0 : DataQualityMonitor) (pre mid : List MonitorCall) (c1 c2 : MonitorCall)
        (st1 st2 : DataQualityStatus) (m1 m2 : DataQualityMonitor),
      0 ≤ m0.alert_interval_sec →
      c1.symbol ++ ":" ++ c1.timeframe = c2.symbol ++ ":" ++ c2.timeframe →
      (runCalls m0 pre).evaluate c1.symbol c1.timeframe c1.ohlcv c1.now = some (some st1, m1) →
      st1.alert = true →
      (runCalls m0 (pre ++ c1 :: mid)).evaluate c2.symbol c2.timeframe c2.ohlcv c2.now
        = some (some st2, m2) →
      st2.alert = true →
      m0.alert_interval_sec ≤ c2.now - c1.now) ∧
    (∀ (m : DataQualityMonitor) (s tf : String) (o : List Candle) (now : Rat)
        (st : DataQualityStatus) (m' : DataQualityMonitor),
      m.evaluate s tf o now = some (some st, m') →
      (st.gap_detected || st.stale) = true →
      st.alert = decide (m.alert_interval_sec ≤ now - getD m.last_alert (s ++ ":" ++ tf) 0)) := by
  constructor
  · intro m0 pre mid c1 c2 st1 st2 m1 m2 hnn hkey hev1 ha1 hev2 ha2
    have hf1 := DataQualityMonitor.evaluate_fired (runCalls m0 pre) c1.symbol c1.timeframe
      c1.ohlcv c1.now st1 m1 hev1 ha1
    have hsplit : runCalls m0 (pre ++ c1 :: mid)
        = runCalls (stepMonitor (runCalls m0 pre) c1) mid := by
      unfold runCalls
      rw [List.foldl_append]
      rfl
    have hstep : stepMonitor (runCalls m0 pre) c1 = m1 := by
      unfold stepMonitor
      rw [hev1]
    rw [hsplit, hstep] at hev2
    have hm1int : m1.alert_interval_sec = m0.alert_interval_sec := by
      have h := (DataQualityMonitor.evaluate_config (runCalls m0 pre) c1.symbol c1.timeframe
        c1.ohlcv c1.now (some st1, m1) hev1).2.1
      rw [h, (runCalls_config m0 pre).2.1]
    have hmono := runCalls_lastAlert_mono mid m1 (c1.symbol ++ ":" ++ c1.timeframe)
      (by rw [hm1int]; exact hnn)
    have hf2 := DataQualityMonitor.evaluate_fired (runCalls m1 mid) c2.symbol c2.timeframe
      c2.ohlcv c2.now st2 m2 hev2 ha2
    have hBint : (runCalls m1 mid).alert_interval_sec = m0.alert_interval_sec := by
      rw [(runCalls_config m1 mid).2.1, hm1int]
    have hkey2 := hf2.2
    rw [← hkey, hBint] at hkey2
    rw [hf1.1] at hmono
    linarith
  · intro m s tf o now st m' hev hgs
    rcases DataQualityMonitor.evaluate_cases m s tf o now with hc | ⟨hc, _⟩ | ⟨st2, hc, ha2, hq⟩ |
        ⟨st2, hc, ha2, _, hcond⟩ | ⟨st2, hc, ha2, _, hcond⟩ <;> rw [hev] at hc
    · injection hc with hp; injection hp with h1 h2; exact Option.noConfusion h1
    · exact Option.noConfusion hc
    · injection hc with hp; injection hp with h1 h2
      injection h1 with hsteq
      rw [hsteq] at hgs; rw [hgs] at hq; exact Bool.noConfusion hq
    · injection hc with hp; injection hp with h1 h2
      injection h1 with hsteq
      rw [hsteq, ha2]
      exact (decide_eq_false hcond).symm
    · injection hc with hp; injection hp with h1 h2
      injection h1 with hsteq
      rw [hsteq, ha2]
      exact (decide_eq_true hcond).symm

/-- Witness for `alert_rate_limit_spec`: a fresh monitor meeting the
stale condition fires exactly because the 1800-second interval has
elapsed since the default last-alert time 0. -/
theorem alert_rate_limit_spec_witness :
    ({ last_ts := 100, gap_ms := 100, gap_detected := false, stale := true, alert := true } :
        DataQualityStatus).alert
      = decide (mkMonitor.alert_interval_sec
          ≤ 1000000 - getD mkMonitor.last_alert ("BTC" ++ ":" ++ "1m") 0) :=
  alert_rate_limit_spec.2 mkMonitor "BTC" "1m" [⟨0, []⟩, ⟨100, []⟩] 1000000
    { last_ts := 100, gap_ms := 100, gap_detected := false, stale := true, alert := true }
    { mkMonitor with last_alert := [("BTC:1m", 1000000)] }
    eval_fire_concrete rfl

/-- C6 (amended): provided the timeframe-to-interval computation succeeds
(any non-empty timeframe; the empty string raises instead, see the
counterexample), `evaluate` returns no status exactly when the monitor is
disabled or fewer than two candles are supplied; otherwise it returns a
status whose `gap_ms` is the last candle's timestamp minus the
second-to-last's, with `gap_detected` iff that exceeds
`expected * gap_multiplier` and `stale` iff `now_ms - last_ts` exceeds
`expected * stale_multiplier`; candles before the last two never affect
the result; and on `[[0, …], [100, …]]` with timeframe "1m" and the
default `gap_multiplier = 1.4`, `gap_ms = 100` and `gap_detected =
false`. -/
theorem evaluate_status_spec (m : DataQualityMonitor) (s tf : String) (o : List Candle)
    (now : Rat) (e : Int) (htf : timeframe_ms tf = some e) :
    (m.evaluate s tf o now = some (none, m) ↔ (m.enabled = false ∨ o.length < 2)) ∧
    (∀ a b tl, o.reverse = a :: b :: tl → m.enabled = true →
      ∃ st m', m.evaluate s tf o now = some (some st, m') ∧
        st.last_ts = a.ts ∧
        st.gap_ms = a.ts - b.ts ∧
        st.gap_detected = decide (((a.ts - b.ts : Int) : Rat) > (e : Rat) * m.gap_multiplier) ∧
        st.stale = decide (((pyTrunc (now * 1000) - a.ts : Int) : Rat)
          > (e : Rat) * m.stale_multiplier)) ∧
    (∀ c, 2 ≤ o.length → m.evaluate s tf (c :: o) now = m.evaluate s tf o now) ∧
    (∃ st m', mkMonitor.evaluate "BTC/USD" "1m" [⟨0, []⟩, ⟨100, []⟩] 0 = some (some st, m') ∧
      st.gap_ms = 100 ∧ st.gap_detected = false) := by
  refine ⟨⟨?_, ?_⟩, ?_, ?_, ?_⟩
  · intro h
    by_contra hno
    have hen : m.enabled = true := by
      cases hm : m.enabled
      · exact absurd (Or.inl hm) hno
      · rfl
    have hlen : ¬ o.length < 2 := fun hl => hno (Or.inr hl)
    obtain ⟨a, b, tl, hrev⟩ := reverse_two o (by omega)
    rw [DataQualityMonitor.evaluate_main m s tf o now e a b tl hen hlen htf hrev] at h
    split_ifs at h <;> simp at h
  · intro h
    unfold DataQualityMonitor.evaluate
    rw [if_pos h]
  · intro a b tl hrev hen
    have hlen : ¬ o.length < 2 := by
      have hl := congrArg List.length hrev
      rw [List.length_reverse] at hl
      simp only [List.length_cons] at hl
      omega
    rw [DataQualityMonitor.evaluate_main m s tf o now e a b tl hen hlen htf hrev]
    split_ifs
    · exact ⟨_, _, rfl, rfl, rfl, rfl, rfl⟩
    · exact ⟨_, _, rfl, rfl, rfl, rfl, rfl⟩
    · exact ⟨_, _, rfl, rfl, rfl, rfl, rfl⟩
  · intro c hlen
    obtain ⟨a, b, tl, hrev⟩ := reverse_two o hlen
    have hrev2 : (c :: o).reverse = a :: b :: (tl ++ [c]) := by
      rw [List.reverse_cons, hrev]
      rfl
    by_cases hen : m.enabled = true
    · have hl2 : ¬ (c :: o).length < 2 := by
        simp only [List.length_cons]
        omega
      rw [DataQualityMonitor.evaluate_main m s tf (c :: o) now e a b (tl ++ [c]) hen hl2 htf hrev2,
        DataQualityMonitor.evaluate_main m s tf o now e a b tl hen (by omega) htf hrev]
    · have hf : m.enabled = false := by
        cases hm : m.enabled
        · rfl
        · exact absurd hm hen
      unfold DataQualityMonitor.evaluate
      rw [if_pos (Or.inl hf), if_pos (Or.inl hf)]
  · exact ⟨_, _, eval_quiet_concrete, rfl, rfl⟩

/-- Witness for `evaluate_status_spec`: the no-status equivalence at the
default monitor with two candles and timeframe "1m". -/
theorem evaluate_status_spec_witness :
    mkMonitor.evaluate "BTC/USD" "1m" [⟨0, []⟩, ⟨100, []⟩] 0 = some (none, mkMonitor) ↔
      (mkMonitor.enabled = false ∨ ([⟨0, []⟩, ⟨100, []⟩] : List Candle).length < 2) :=
  (evaluate_status_spec mkMonitor "BTC/USD" "1m" [⟨0, []⟩, ⟨100, []⟩] 0 60000 (by decide)).1

/-- C6 counterexample: an enabled monitor with two candles and the empty
timeframe neither returns `None` nor a status record — the call raises
(IndexError inside `_timeframe_ms`), modelled as the outer `none`. -/
theorem evaluate_status_cex :
    mkMonitor.enabled = true ∧
    ([⟨0, []⟩, ⟨100, []⟩] : List Candle).length = 2 ∧
    mkMonitor.evaluate "BTC/USD" "" [⟨0, []⟩, ⟨100, []⟩] 0 = none :=
  ⟨rfl, rfl, by decide⟩

/-- C10: each `evaluate` call leaves the per-key last-alert map unchanged
unless the returned status carries `alert = true`, in which case exactly
the evaluated `symbol:timeframe` key is set to the current time and every
other key keeps its value; in particular a rate-limit-suppressed alert
(condition met, `alert = false`) does not reset the interval timer. -/
theorem evaluate_lastAlert_frame (m : DataQualityMonitor) (s tf : String) (o : List Candle)
    (now : Rat) (r : Option DataQualityStatus × DataQualityMonitor)
    (h : m.evaluate s tf o now = some r) :
    (r.1 = none → r.2 = m) ∧
    (∀ st, r.1 = some st → st.alert = false → r.2 = m) ∧
    (∀ st, r.1 = some st → st.alert = true →
      r.2.last_alert = setKey m.last_alert (s ++ ":" ++ tf) now ∧
      getD r.2.last_alert (s ++ ":" ++ tf) 0 = now ∧
      (∀ k d, k ≠ s ++ ":" ++ tf → getD r.2.last_alert k d = getD m.last_alert k d)) := by
  rcases DataQualityMonitor.evaluate_cases m s tf o now with hc | ⟨hc, _⟩ | ⟨st2, hc, ha2, _⟩ |
      ⟨st2, hc, ha2, _, _⟩ | ⟨st2, hc, ha2, _, _⟩ <;> rw [h] at hc
  · injection hc with hr; subst hr
    exact ⟨fun _ => rfl, fun st hst _ => Option.noConfusion hst,
      fun st hst _ => Option.noConfusion hst⟩
  · exact Option.noConfusion hc
  · injection hc with hr; subst hr
    refine ⟨fun hnone => Option.noConfusion hnone, fun st hst _ => rfl, fun st hst htrue => ?_⟩
    injection hst with hsteq
    rw [← hsteq] at htrue; rw [htrue] at ha2; exact Bool.noConfusion ha2
  · injection hc with hr; subst hr
    refine ⟨fun hnone => Option.noConfusion hnone, fun st hst _ => rfl, fun st hst htrue => ?_⟩
    injection hst with hsteq
    rw [← hsteq] at htrue; rw [htrue] at ha2; exact Bool.noConfusion ha2
  · injection hc with hr; subst hr
    refine ⟨fun hnone => Option.noConfusion hnone, fun st hst hfalse => ?_,
      fun st hst htrue => ?_⟩
    · injection hst with hsteq
      rw [← hsteq] at hfalse; rw [hfalse] at ha2; exact Bool.noConfusion ha2
    · exact ⟨rfl, getD_setKey_same m.last_alert (s ++ ":" ++ tf) now 0,
        fun k d hk => getD_setKey_ne m.last_alert (s ++ ":" ++ tf) k now d hk⟩

/-- Witness for `evaluate_lastAlert_frame`: the fired alert records the
evaluated key at the call time. -/
theorem evaluate_lastAlert_frame_witness :
    getD ({ mkMonitor with last_alert := [("BTC:1m", 1000000)] } :
        DataQualityMonitor).last_alert ("BTC" ++ ":" ++ "1m") 0 = 1000000 :=
  ((evaluate_lastAlert_frame mkMonitor "BTC" "1m" [⟨0, []⟩, ⟨100, []⟩] 1000000
      (some { last_ts := 100, gap_ms := 100, gap_detected := false, stale := true, alert := true },
       { mkMonitor with last_alert := [("BTC:1m", 1000000)] })
      eval_fire_concrete).2.2
    { last_ts := 100, gap_ms := 100, gap_detected := false, stale := true, alert := true }
    rfl rfl).2.1

end KrackenGuard
